import Mathlib

/-!
Verification of the tinygp repository snapshot.

The supplied files are the Sphinx Makefile (docs/Makefile), the mixture
tutorial notebook (docs/tutorials/mixture.ipynb), the API reference page
(an RST file), the tox configuration, and CONTRIBUTING.md.  The library
implementation itself is not among the supplied files, so the data model
of kernels, transforms, distances and the Gaussian-process interface is
modelled from the specification, while the predictive-mean equations are
taken from the markdown of the mixture tutorial and the build plumbing is
taken verbatim from the Makefile and the tox configuration.
-/

namespace tinygp

open Matrix

/-- Modelled from the spec: the missing library source for
`tinygp.kernels`.  A kernel is a function of two input coordinates
producing a covariance scalar, closed under sum, product and scalar
multiplication; the sum and product composites expose their operands as
the attributes `kernel1` and `kernel2`. -/
inductive Kernel (X : Type) where
  | custom (f : X → X → ℚ)
  | sum (k1 k2 : Kernel X)
  | prod (k1 k2 : Kernel X)
  | scale (amp : ℚ) (base : Kernel X)

/-- Evaluation of a kernel at a pair of coordinates: a sum kernel adds the
evaluations of its operands, a product kernel multiplies them, and a
scaled kernel multiplies the evaluation by the scalar. -/
def Kernel.eval {X : Type} : Kernel X → X → X → ℚ
  | .custom f, x1, x2 => f x1 x2
  | .sum k1 k2, x1, x2 => k1.eval x1 x2 + k2.eval x1 x2
  | .prod k1 k2, x1, x2 => k1.eval x1 x2 * k2.eval x1 x2
  | .scale c k, x1, x2 => c * k.eval x1 x2

instance {X : Type} : Add (Kernel X) := ⟨Kernel.sum⟩

instance {X : Type} : Mul (Kernel X) := ⟨Kernel.prod⟩

instance {X : Type} : HMul ℚ (Kernel X) (Kernel X) := ⟨Kernel.scale⟩

/-- First operand of a composite kernel, mirroring the `kernel1`
attribute of the sum and product kernel classes. -/
def Kernel.kernel1 {X : Type} : Kernel X → Option (Kernel X)
  | .sum k1 _ => some k1
  | .prod k1 _ => some k1
  | _ => none

/-- Second operand of a composite kernel, mirroring the `kernel2`
attribute of the sum and product kernel classes. -/
def Kernel.kernel2 {X : Type} : Kernel X → Option (Kernel X)
  | .sum _ k2 => some k2
  | .prod _ k2 => some k2
  | _ => none

/-- C3: kernel objects compose algebraically.  The binary operator `+` on
two kernels yields their sum kernel and evaluates to the sum of the two
evaluations, the binary operator `*` yields their product kernel and
evaluates to the product, and multiplication of a kernel by a scalar
yields the scaled kernel whose evaluation is the scalar times the
evaluation, exactly as exercised by the `build_gp` function of the
tutorial. -/
theorem kernel_algebraic_composition {X : Type} (k1 k2 : Kernel X) (c : ℚ)
    (x1 x2 : X) :
    k1 + k2 = Kernel.sum k1 k2 ∧
    (k1 + k2).eval x1 x2 = k1.eval x1 x2 + k2.eval x1 x2 ∧
    k1 * k2 = Kernel.prod k1 k2 ∧
    (k1 * k2).eval x1 x2 = k1.eval x1 x2 * k2.eval x1 x2 ∧
    c * k1 = Kernel.scale c k1 ∧
    (c * k1).eval x1 x2 = c * k1.eval x1 x2 :=
  ⟨rfl, rfl, rfl, rfl, rfl, rfl⟩

/-- Covariance matrix of a kernel over a finite family of input
coordinates: entry (i, j) is the kernel evaluated at inputs i and j. -/
def covarianceMatrix {X : Type} {n : ℕ} (k : Kernel X) (xs : Fin n → X) :
    Matrix (Fin n) (Fin n) ℚ :=
  Matrix.of fun i j => k.eval (xs i) (xs j)

/-- Explicit matrix inverse over the rationals, via the adjugate. -/
def qInv {n : ℕ} (A : Matrix (Fin n) (Fin n) ℚ) : Matrix (Fin n) (Fin n) ℚ :=
  A.det⁻¹ • A.adjugate

/-- When the determinant does not vanish, `qInv` is a right inverse. -/
theorem mul_qInv {n : ℕ} (A : Matrix (Fin n) (Fin n) ℚ) (h : A.det ≠ 0) :
    A * qInv A = 1 := by
  rw [qInv, Matrix.mul_smul, Matrix.mul_adjugate, smul_smul,
    inv_mul_cancel₀ h, one_smul]

/-- Modelled from the spec: the missing library source for
`tinygp.GaussianProcess`.  A Gaussian process holds a kernel, input
coordinates and a diagonal observation-noise term. -/
structure GaussianProcess (X : Type) (n : ℕ) where
  kernel : Kernel X
  inputs : Fin n → X
  diag : ℚ

/-- Modelled from the spec: the conditioning operation of a Gaussian
process.  Given observations `y` and an optional kernel argument, it
returns the predictive mean of the tutorial, `Kc (K + N)⁻¹ y`, where `K`
is the covariance of the full kernel over the inputs, `N` the diagonal
noise and `Kc` the covariance of the optional kernel (defaulting to the
full kernel). -/
def GaussianProcess.condition {X : Type} {n : ℕ} (gp : GaussianProcess X n)
    (y : Fin n → ℚ) (k : Option (Kernel X)) : Fin n → ℚ :=
  covarianceMatrix (k.getD gp.kernel) gp.inputs *ᵥ
    (qInv (covarianceMatrix gp.kernel gp.inputs + gp.diag • 1) *ᵥ y)

/-- Modelled from the spec: the likelihood operation of a Gaussian
process, a function of the observations.  The spec supplies no formula
for it, so only the data-dependent quadratic term of the Gaussian
log-density is modelled; the log-determinant and constant terms are
omitted. -/
def GaussianProcess.log_probability {X : Type} {n : ℕ}
    (gp : GaussianProcess X n) (y : Fin n → ℚ) : ℚ :=
  -(1 / 2) *
    (y ⬝ᵥ (qInv (covarianceMatrix gp.kernel gp.inputs + gp.diag • 1) *ᵥ y))

/-- Predictive mean of the sum-kernel Gaussian process, transcribed from
the markdown equations of the mixture tutorial:
mu = (K1 + K2) (K1 + K2 + N)⁻¹ y. -/
def mixturePredictiveMean {n : ℕ} (K1 K2 N : Matrix (Fin n) (Fin n) ℚ)
    (y : Fin n → ℚ) : Fin n → ℚ :=
  (K1 + K2) *ᵥ (qInv (K1 + K2 + N) *ᵥ y)

/-- Predictive mean of one component, transcribed from the markdown
equations of the mixture tutorial: mu_i = K_i (K1 + K2 + N)⁻¹ y. -/
def componentPredictiveMean {n : ℕ} (Ki K1 K2 N : Matrix (Fin n) (Fin n) ℚ)
    (y : Fin n → ℚ) : Fin n → ℚ :=
  Ki *ᵥ (qInv (K1 + K2 + N) *ᵥ y)

/-- C1: for covariance matrices K1 and K2, a noise matrix N making
K1 + K2 + N invertible, and observations y, the predictive mean of the
sum-kernel Gaussian process decomposes as the sum of the per-component
predictive means mu_1 and mu_2, and the matrix inverted in those
equations is a genuine inverse there. -/
theorem mixture_predictive_mean_decomposition {n : ℕ}
    (K1 K2 N : Matrix (Fin n) (Fin n) ℚ) (y : Fin n → ℚ)
    (h : (K1 + K2 + N).det ≠ 0) :
    mixturePredictiveMean K1 K2 N y =
      componentPredictiveMean K1 K1 K2 N y +
        componentPredictiveMean K2 K1 K2 N y ∧
    (K1 + K2 + N) * qInv (K1 + K2 + N) = 1 := by
  constructor
  · unfold mixturePredictiveMean componentPredictiveMean
    rw [Matrix.add_mulVec]
  · exact mul_qInv _ h

/-- Concrete instance of the decomposition with n = 1, K1 = K2 = 0,
N = 1 and y = 1. -/
theorem mixture_predictive_mean_decomposition_witness :
    (((0 : Matrix (Fin 1) (Fin 1) ℚ) + 0 + 1).det ≠ 0) ∧
    (mixturePredictiveMean (0 : Matrix (Fin 1) (Fin 1) ℚ) 0 1
        (fun _ => 1) =
      componentPredictiveMean 0 0 0 1 (fun _ => 1) +
        componentPredictiveMean 0 0 0 1 (fun _ => 1) ∧
    ((0 : Matrix (Fin 1) (Fin 1) ℚ) + 0 + 1) * qInv (0 + 0 + 1) = 1) :=
  ⟨by simp, mixture_predictive_mean_decomposition 0 0 1 (fun _ => 1)
    (by simp)⟩

/-- C4: a Gaussian process is constructed from a kernel, input
coordinates and a diagonal noise term, and exposes conditioning on the
observations with an optional kernel argument (defaulting to its own
kernel) and a likelihood operation applied to the observations. -/
theorem gaussian_process_interface {X : Type} {n : ℕ} (k : Kernel X)
    (xs : Fin n → X) (d : ℚ) (y : Fin n → ℚ) :
    (GaussianProcess.mk k xs d).kernel = k ∧
    (GaussianProcess.mk k xs d).inputs = xs ∧
    (GaussianProcess.mk k xs d).diag = d ∧
    (GaussianProcess.mk k xs d).condition y none =
      (GaussianProcess.mk k xs d).condition y (some k) ∧
    (GaussianProcess.mk k xs d).log_probability y =
      -(1 / 2) * (y ⬝ᵥ (qInv (covarianceMatrix k xs + d • 1) *ᵥ y)) :=
  ⟨rfl, rfl, rfl, rfl, rfl⟩

/-- The covariance matrix of a sum kernel is the sum of the covariance
matrices of its operands. -/
theorem covarianceMatrix_add {X : Type} {n : ℕ} (k1 k2 : Kernel X)
    (xs : Fin n → X) :
    covarianceMatrix (k1 + k2) xs =
      covarianceMatrix k1 xs + covarianceMatrix k2 xs :=
  rfl

/-- C9: a kernel built as the sum of two kernels exposes its summands as
the attributes kernel1 and kernel2, and for a Gaussian process built with
that sum kernel, passing them as the kernel argument of `condition`
yields the per-component predictive means, which sum to the full
predictive mean. -/
theorem sum_kernel_components_condition {X : Type} {n : ℕ}
    (k1 k2 : Kernel X) (xs : Fin n → X) (d : ℚ) (y : Fin n → ℚ) :
    (GaussianProcess.mk (k1 + k2) xs d).kernel.kernel1 = some k1 ∧
    (GaussianProcess.mk (k1 + k2) xs d).kernel.kernel2 = some k2 ∧
    (GaussianProcess.mk (k1 + k2) xs d).condition y
        (GaussianProcess.mk (k1 + k2) xs d).kernel.kernel1 =
      componentPredictiveMean (covarianceMatrix k1 xs)
        (covarianceMatrix k1 xs) (covarianceMatrix k2 xs) (d • 1) y ∧
    (GaussianProcess.mk (k1 + k2) xs d).condition y
        (GaussianProcess.mk (k1 + k2) xs d).kernel.kernel2 =
      componentPredictiveMean (covarianceMatrix k2 xs)
        (covarianceMatrix k1 xs) (covarianceMatrix k2 xs) (d • 1) y ∧
    (GaussianProcess.mk (k1 + k2) xs d).condition y none =
      (GaussianProcess.mk (k1 + k2) xs d).condition y
          (GaussianProcess.mk (k1 + k2) xs d).kernel.kernel1 +
        (GaussianProcess.mk (k1 + k2) xs d).condition y
          (GaussianProcess.mk (k1 + k2) xs d).kernel.kernel2 := by
  refine ⟨rfl, rfl, rfl, rfl, ?_⟩
  show covarianceMatrix (k1 + k2) xs *ᵥ
      (qInv (covarianceMatrix (k1 + k2) xs + d • 1) *ᵥ y) =
    covarianceMatrix k1 xs *ᵥ
        (qInv (covarianceMatrix (k1 + k2) xs + d • 1) *ᵥ y) +
      covarianceMatrix k2 xs *ᵥ
        (qInv (covarianceMatrix (k1 + k2) xs + d • 1) *ᵥ y)
  rw [covarianceMatrix_add, Matrix.add_mulVec]

namespace kernels

namespace stationary

/-- Modelled from the spec: the missing library source for
`tinygp.kernels.stationary.Distance`, the strategy interface computing a
scalar distance between two coordinates.  The API page lists exactly two
provided variants, so the type has exactly two constructors. -/
inductive Distance where
  | l1
  | l2
deriving DecidableEq, Fintype

/-- The L1 (absolute-difference) distance variant. -/
def L1Distance : Distance := Distance.l1

/-- The L2 (Euclidean) distance variant. -/
def L2Distance : Distance := Distance.l2

/-- Modelled from the spec: the scalar distance computed by each variant
on vector coordinates, L1 as the sum of absolute coordinate differences
and L2 as the Euclidean distance. -/
noncomputable def Distance.eval {m : ℕ} :
    Distance → (Fin m → ℝ) → (Fin m → ℝ) → ℝ
  | .l1, x1, x2 => ∑ i, |x1 i - x2 i|
  | .l2, x1, x2 => Real.sqrt (∑ i, (x1 i - x2 i) ^ 2)

end stationary

/-- Modelled from the spec: a kernel of the Stationary family, recorded
by which member of the family it is together with the Distance strategy
that parameterizes it. -/
structure Stationary where
  kind : String
  distance : stationary.Distance

/-- The Exp stationary kernel with its distance metric. -/
def Exp (d : stationary.Distance) : Stationary := ⟨"Exp", d⟩

/-- The ExpSquared stationary kernel with its distance metric. -/
def ExpSquared (d : stationary.Distance) : Stationary := ⟨"ExpSquared", d⟩

/-- The Matern32 stationary kernel with its distance metric. -/
def Matern32 (d : stationary.Distance) : Stationary := ⟨"Matern32", d⟩

/-- The Matern52 stationary kernel with its distance metric. -/
def Matern52 (d : stationary.Distance) : Stationary := ⟨"Matern52", d⟩

/-- The Cosine stationary kernel with its distance metric. -/
def Cosine (d : stationary.Distance) : Stationary := ⟨"Cosine", d⟩

/-- The ExpSineSquared stationary kernel with its distance metric. -/
def ExpSineSquared (d : stationary.Distance) : Stationary :=
  ⟨"ExpSineSquared", d⟩

/-- The RationalQuadratic stationary kernel with its distance metric. -/
def RationalQuadratic (d : stationary.Distance) : Stationary :=
  ⟨"RationalQuadratic", d⟩

/-- C5: every kernel of the Stationary family (Exp, ExpSquared,
Matern32, Matern52, Cosine, ExpSineSquared, RationalQuadratic) is
parameterized by the Distance strategy it is built with; the Distance
interface computes a scalar distance between two coordinates, which
vanishes on equal coordinates; and the interface has exactly the two
provided variants L1Distance and L2Distance. -/
theorem stationary_distance_interface (d : stationary.Distance) :
    (Exp d).distance = d ∧ (ExpSquared d).distance = d ∧
    (Matern32 d).distance = d ∧ (Matern52 d).distance = d ∧
    (Cosine d).distance = d ∧ (ExpSineSquared d).distance = d ∧
    (RationalQuadratic d).distance = d ∧
    Fintype.card stationary.Distance = 2 ∧
    (∀ d2 : stationary.Distance,
      d2 = stationary.L1Distance ∨ d2 = stationary.L2Distance) ∧
    (∀ (m : ℕ) (x : Fin m → ℝ), stationary.Distance.eval d x x = 0) := by
  refine ⟨rfl, rfl, rfl, rfl, rfl, rfl, rfl, rfl, ?_, ?_⟩
  · intro d2
    cases d2
    · exact Or.inl rfl
    · exact Or.inr rfl
  · intro m x
    cases d <;> simp [stationary.Distance.eval]

end kernels

namespace transforms

/-- Modelled from the spec: a transform is any callable that takes an
input coordinate and returns a transformed coordinate. -/
def Transform (X Y : Type) : Type := X → Y

/-- Wrapping a kernel with a transform: the coordinate remapping is
applied to both inputs before the wrapped kernel is evaluated. -/
def Transform.wrap {X Y : Type} (t : Transform X Y) (k : Kernel Y) :
    Kernel X :=
  Kernel.custom fun x1 x2 => k.eval (t x1) (t x2)

/-- Modelled from the spec: the Linear transform, a linear coordinate
remapping wrapping a kernel. -/
def Linear {p m : ℕ} (A : Matrix (Fin p) (Fin m) ℚ)
    (k : Kernel (Fin p → ℚ)) : Kernel (Fin m → ℚ) :=
  Transform.wrap (fun x => A *ᵥ x) k

/-- Modelled from the spec: the Cholesky-parameterized transform, which
remaps a coordinate by solving against the given factor, modelled as
multiplication by the inverse of the factor. -/
def Cholesky {m : ℕ} (L : Matrix (Fin m) (Fin m) ℚ)
    (k : Kernel (Fin m → ℚ)) : Kernel (Fin m → ℚ) :=
  Transform.wrap (fun x => qInv L *ᵥ x) k

/-- Modelled from the spec: the Subspace transform, which selects one
coordinate axis of the input vector. -/
def Subspace {m : ℕ} (i : Fin m) (k : Kernel ℚ) : Kernel (Fin m → ℚ) :=
  Transform.wrap (fun x => x i) k

/-- C6: a transform is a callable from input coordinates to transformed
coordinates, a transform wrapping a kernel applies the coordinate
remapping to both inputs before the wrapped kernel is evaluated, and the
built-in variants Linear, Cholesky and Subspace remap by a linear map,
by solving against a Cholesky factor, and by axis selection. -/
theorem transform_wrapping {X Y : Type} (t : Transform X Y) (k : Kernel Y)
    (a b : X) {p m : ℕ} (A : Matrix (Fin p) (Fin m) ℚ)
    (kp : Kernel (Fin p → ℚ)) (L : Matrix (Fin m) (Fin m) ℚ)
    (km : Kernel (Fin m → ℚ)) (ks : Kernel ℚ) (i : Fin m)
    (x1 x2 : Fin m → ℚ) :
    (t.wrap k).eval a b = k.eval (t a) (t b) ∧
    (Linear A kp).eval x1 x2 = kp.eval (A *ᵥ x1) (A *ᵥ x2) ∧
    (Cholesky L km).eval x1 x2 =
      km.eval (qInv L *ᵥ x1) (qInv L *ᵥ x2) ∧
    (Subspace i ks).eval x1 x2 = ks.eval (x1 i) (x2 i) :=
  ⟨rfl, rfl, rfl, rfl⟩

end transforms

namespace docs

/-- The overridable variables of the Sphinx Makefile.  SPHINXOPTS,
SPHINXBUILD and BUILDDIR may be set from the command line; PAPER selects
a paper option and is unset by default. -/
structure MakeConfig where
  sphinxopts : List String
  sphinxbuild : String
  builddir : String
  paper : Option String

/-- The variable values the Makefile assigns when none is overridden:
SPHINXOPTS empty, SPHINXBUILD = sphinx-build, BUILDDIR = _build, PAPER
unset. -/
def defaultConfig : MakeConfig :=
  { sphinxopts := []
    sphinxbuild := "sphinx-build"
    builddir := "_build"
    paper := none }

/-- Expansion of PAPEROPT_$(PAPER): the a4 and letter settings from the
Makefile, and nothing for any other value of PAPER. -/
def paperOpt : Option String → List String
  | some "a4" => ["-D", "latex_paper_size=a4"]
  | some "letter" => ["-D", "latex_paper_size=letter"]
  | _ => []

/-- Expansion of ALLSPHINXOPTS from the Makefile:
-d $(BUILDDIR)/doctrees $(PAPEROPT_$(PAPER)) $(SPHINXOPTS) . -/
def allSphinxOpts (c : MakeConfig) : List String :=
  ["-d", c.builddir ++ "/doctrees"] ++ paperOpt c.paper ++
    c.sphinxopts ++ ["."]

/-- The command run by the dirhtml target:
$(SPHINXBUILD) -b dirhtml $(ALLSPHINXOPTS) $(BUILDDIR)/dirhtml. -/
def dirhtmlCommand (c : MakeConfig) : List String :=
  [c.sphinxbuild, "-b", "dirhtml"] ++ allSphinxOpts c ++
    [c.builddir ++ "/dirhtml"]

/-- A rule of the Makefile: a target, its prerequisites and its recipe
commands. -/
structure MakeRule where
  target : String
  prereqs : List String
  recipe : List (List String)

/-- The command run by the clean target, rm -rf $(BUILDDIR)/* $(PAGES);
the variable PAGES is never assigned in the Makefile, so it expands to
nothing. -/
def cleanCommand (c : MakeConfig) : List String :=
  ["rm", "-rf", c.builddir ++ "/*"]

/-- The rules of the Makefile in file order: the default rule first with
dirhtml as its only prerequisite, then clean, then dirhtml (echo lines
of the dirhtml recipe elided to its build command). -/
def makefileRules (c : MakeConfig) : List MakeRule :=
  [{ target := "default", prereqs := ["dirhtml"], recipe := [] },
   { target := "clean", prereqs := [], recipe := [cleanCommand c] },
   { target := "dirhtml", prereqs := [], recipe := [dirhtmlCommand c] }]

/-- Whether the glob $(BUILDDIR)/* of the clean recipe reaches a path,
modelled as the path lying under the build directory. -/
def cleanRemoves (c : MakeConfig) (path : String) : Bool :=
  path.startsWith (c.builddir ++ "/")

/-- Effect of the clean target on a set of paths: the paths under the
build directory are removed and every other path is kept. -/
def cleanEffect (c : MakeConfig) (files : List String) : List String :=
  files.filter fun f => !cleanRemoves c f

/-- C7: the dirhtml target invokes the configured sphinx-build with the
dirhtml builder and writes the output into $(BUILDDIR)/dirhtml, and
BUILDDIR is _build unless overridden on the command line. -/
theorem dirhtml_target (c : MakeConfig) :
    (dirhtmlCommand c).take 3 = [c.sphinxbuild, "-b", "dirhtml"] ∧
    (dirhtmlCommand c).getLast? = some (c.builddir ++ "/dirhtml") ∧
    defaultConfig.builddir = "_build" ∧
    defaultConfig.sphinxbuild = "sphinx-build" := by
  refine ⟨rfl, ?_, rfl, rfl⟩
  exact List.getLast?_concat ([c.sphinxbuild, "-b", "dirhtml"] ++
    allSphinxOpts c)

/-- C10: invoking make with no target builds dirhtml, because the first
rule of the Makefile is the default rule whose sole prerequisite is
dirhtml; and the clean target removes exactly the paths under the build
directory, keeping every other path unchanged. -/
theorem default_and_clean_targets (c : MakeConfig) (files : List String)
    (f : String) :
    (makefileRules c).head? =
      some { target := "default", prereqs := ["dirhtml"], recipe := [] } ∧
    (f ∈ cleanEffect c files ↔ f ∈ files ∧ cleanRemoves c f = false) := by
  refine ⟨rfl, ?_⟩
  rw [cleanEffect, List.mem_filter, Bool.not_eq_true']

end docs

namespace tox

/-- The envlist of the tox configuration, py{38,39,310},doctest,lint,
with the brace group expanded over the prefix py. -/
def envlist : List String :=
  (["38", "39", "310"].map fun s => "py" ++ s) ++ ["doctest", "lint"]

/-- The setenv assignments of the shared testenv section. -/
def testenvSetenv : List (String × String) :=
  [("JAX_ENABLE_X64", "True")]

/-- The commands of the shared testenv section. -/
def testenvCommands : List (List String) :=
  [["pip", "freeze"],
   ["python", "-m", "coverage", "run", "-m", "pytest", "-v", "{posargs}"]]

/-- The commands of the doctest environment. -/
def doctestCommands : List (List String) :=
  [["pip", "freeze"],
   ["python", "-m", "pytest", "--doctest-modules", "-v",
    "{envsitepackagesdir}/tinygp", "{posargs}"]]

/-- C8: the tox configuration defines exactly the environments py38,
py39, py310, doctest and lint; the shared testenv section sets
JAX_ENABLE_X64 to True; the test environments run the coverage-wrapped
test runner python -m coverage run -m pytest; and the doctest
environment runs python -m pytest --doctest-modules over the installed
tinygp package. -/
theorem tox_configuration :
    envlist = ["py38", "py39", "py310", "doctest", "lint"] ∧
    testenvSetenv = [("JAX_ENABLE_X64", "True")] ∧
    (testenvCommands.any fun cmd =>
      cmd.take 6 == ["python", "-m", "coverage", "run", "-m", "pytest"])
      = true ∧
    (doctestCommands.any fun cmd =>
      cmd.take 4 == ["python", "-m", "pytest", "--doctest-modules"] &&
        cmd.contains "{envsitepackagesdir}/tinygp") = true := by
  refine ⟨rfl, rfl, ?_, ?_⟩ <;> decide

end tox

namespace repo

/-- The supplied source files of the repository snapshot: the contributor
guide, the Sphinx Makefile, the mixture tutorial notebook, the RST API
reference page, and the tox configuration. -/
inductive SourceFile where
  | contributingMd
  | docsMakefile
  | mixtureNotebook
  | apiRst
  | toxIni
deriving DecidableEq, Fintype

/-- The list of all supplied source files. -/
def suppliedFiles : List SourceFile :=
  [.contributingMd, .docsMakefile, .mixtureNotebook, .apiRst, .toxIni]

/-- The classes of the library named in the claim. -/
def engineClasses : List String :=
  ["GaussianProcess", "Kernel", "Stationary", "Distance", "Transform"]

/-- Class names each supplied file references, transcribed from the
files: the API page lists autoclass entries for the computation engine,
the kernel hierarchy, the stationary kernels, the distance metrics and
the transforms; the notebook imports and calls GaussianProcess, kernels
and transforms; the other files reference none of these classes. -/
def referencedClasses : SourceFile → List String
  | .apiRst =>
      ["GaussianProcess", "Kernel", "Custom", "Constant", "DotProduct",
       "Polynomial", "Stationary", "Exp", "ExpSquared", "Matern32",
       "Matern52", "Cosine", "ExpSineSquared", "RationalQuadratic",
       "Distance", "L1Distance", "L2Distance", "Transform", "Linear",
       "Cholesky", "Subspace"]
  | .mixtureNotebook =>
      ["GaussianProcess", "Matern32", "ExpSquared", "ExpSineSquared",
       "Linear", "Subspace"]
  | _ => []

/-- Python classes each supplied file defines, transcribed from the
files: no supplied file contains a Python class definition.  The only
Python definitions anywhere in the snapshot are the functions of the
notebook. -/
def definedClasses : SourceFile → List String
  | _ => []

/-- Python functions each supplied file defines, transcribed from the
files: the notebook defines build_gp and loss; no other file defines
Python code. -/
def definedFunctions : SourceFile → List String
  | .mixtureNotebook => ["build_gp", "loss"]
  | _ => []

/-- C2: no supplied source file defines the computational behaviour of
GaussianProcess, Kernel, Stationary, Distance or Transform, while each of
those classes is referenced by name in at least one supplied file (the
API reference page names all of them); the list of supplied files covers
the whole snapshot. -/
theorem no_engine_source_supplied :
    (suppliedFiles.all fun f => engineClasses.all fun c =>
      !(definedClasses f).contains c) = true ∧
    (engineClasses.all fun c => suppliedFiles.any fun f =>
      (referencedClasses f).contains c) = true ∧
    suppliedFiles.length = Fintype.card SourceFile := by
  refine ⟨?_, ?_, ?_⟩ <;> decide

end repo

end tinygp
